import Mathlib

/-!
Verification of the pit-crew agent runtime and analyzer pipeline
(`packages/agents`): a shallow embedding of the IPC socket client
(`src/ipc/socket_client.py`), the quality and security agents
(`src/quality_agent.py`, `src/security_agent.py`, `quality_agent.py`)
and the syntax plugins (`src/plugins`), together with theorems settling
the behavioural claims about task admission, the error cooldown,
reconnection backoff, SARIF serialization, parser normalization and
severity aggregation.

Conventions of the embedding:
* Python `dict.get(key, default)` chains on decoded JSON records are
  modelled by structures whose fields are `Option`-valued, with the same
  defaults applied at the access site.
* `time.time()` values and second counts are rationals; Python `int()`
  truncation of a nonnegative float is `Int.floor` on the rational.
* `self.active_tasks` (a Python dict keyed by task id) is an association
  list with dict-like insert/erase helpers.
* Subprocess calls are modelled by passing their decoded output (or exit
  code) as an argument; only the fields the claims read are carried.
-/

/-! ## IPC client state (src/ipc/socket_client.py) -/

/-- One entry of `SocketClient.active_tasks`: `start_time` and `timeout`
(seconds), as stored by `_handle_task`. -/
structure ActiveTask where
  start_time : ℚ
  timeout : ℚ
  deriving Repr, DecidableEq

/-- The outbound `type=task` response message built by
`send_task_response`: the task id, the `status` field of `data`, and the
`cooldown_remaining` entry of `results` when the agents supply one. -/
structure TaskResponseMsg where
  id : String
  status : String
  cooldown_remaining : Option ℤ := none
  deriving Repr, DecidableEq

/-- Python dict membership test on an association list. -/
def alistHasKey {α : Type} (k : String) (l : List (String × α)) : Bool :=
  l.any (fun p => p.1 = k)

/-- Python `del d[k]` on an association list (keys are unique under
`alistInsert`, so removing every binding of `k` is the dict behaviour). -/
def alistErase {α : Type} (k : String) (l : List (String × α)) : List (String × α) :=
  l.filter (fun p => p.1 ≠ k)

/-- Python `d[k] = v` on an association list: replace in place if the key
exists, append otherwise (matching dict insertion order and length). -/
def alistInsert {α : Type} (k : String) (v : α) (l : List (String × α)) :
    List (String × α) :=
  if alistHasKey k l then l.map (fun p => if p.1 = k then (k, v) else p)
  else l ++ [(k, v)]

/-- The slice of `SocketClient` state the task-lifecycle claims read:
`active_tasks`, `max_active_tasks`, `is_connected`, and the sequence of
task-response messages actually written to the socket. -/
structure ClientState where
  active_tasks : List (String × ActiveTask) := []
  max_active_tasks : ℕ := 10
  is_connected : Bool := true
  outbox : List TaskResponseMsg := []
  deriving Repr, DecidableEq

/-- `SocketClient.send_message` restricted to task responses: returns
`False` without transmitting when not connected; otherwise writes the
newline-framed message to the socket and returns `True` (socket-level
write errors are outside the model). -/
def send_message (s : ClientState) (m : TaskResponseMsg) : ClientState × Bool :=
  if s.is_connected then ({ s with outbox := s.outbox ++ [m] }, true)
  else (s, false)

/-- `SocketClient.send_task_response`: build the response message, remove
the task from `active_tasks` (a no-op when absent), then `send_message`. -/
def send_task_response (s : ClientState) (task_id status : String)
    (cr : Option ℤ) : ClientState × Bool :=
  let s1 := { s with active_tasks := alistErase task_id s.active_tasks }
  send_message s1 { id := task_id, status := status, cooldown_remaining := cr }

/-- `SocketClient._cleanup_timed_out_tasks`: collect the ids whose
`current_time - start_time > timeout`, then for each one still present
delete it and emit a `status=timeout` response via `send_task_response`. -/
def cleanup_timed_out_tasks (current_time : ℚ) (s : ClientState) : ClientState :=
  let timed_out := (s.active_tasks.filter
    (fun p => p.2.timeout < current_time - p.2.start_time)).map (fun p => p.1)
  timed_out.foldl (fun st tid =>
    if alistHasKey tid st.active_tasks then
      let st1 := { st with active_tasks := alistErase tid st.active_tasks }
      (send_task_response st1 tid "timeout" none).1
    else st) s

/-! ## Agent error-resilience state (quality_agent.py / security_agent.py) -/

/-- The error-resilience attributes shared by `QualityAgent` and
`SecurityAgent`: `consecutive_errors`, `max_consecutive_errors` (10),
`error_threshold_cooldown` (300 s), and the elapsed time
`time.time() - last_successful_run` observed when `handle_task` runs. -/
structure AgentErrorState where
  consecutive_errors : ℕ := 0
  max_consecutive_errors : ℕ := 10
  elapsed_since_success : ℚ
  error_threshold_cooldown : ℚ := 300
  deriving Repr, DecidableEq

/-- The guard of the early-return in `handle_task`:
`consecutive_errors >= max_consecutive_errors and
time_since_last_success < error_threshold_cooldown`. -/
def cooldownActive (e : AgentErrorState) : Bool :=
  decide (e.max_consecutive_errors ≤ e.consecutive_errors) &&
    decide (e.elapsed_since_success < e.error_threshold_cooldown)

/-- `int(self.error_threshold_cooldown - time_since_last_success)`: the
value of `cooldown_remaining` in the failure reply (Python `int()`
truncation; the guard makes the operand nonnegative, where it is floor). -/
def cooldownRemaining (e : AgentErrorState) : ℤ :=
  ⌊e.error_threshold_cooldown - e.elapsed_since_success⌋

/-- Outcome of the cooldown gate at the top of `handle_task`. -/
inductive HandleOutcome where
  | cooldownReply (remaining : ℤ)
  | ranPipeline
  deriving Repr, DecidableEq

/-- The cooldown gate of `QualityAgent.handle_task` (identical in
`SecurityAgent.handle_task`): if the agent is in the error state it
replies `status=failed` with `cooldown_remaining` and returns without
running the analysis pipeline; otherwise the pipeline runs. -/
def qualityCooldownGate (e : AgentErrorState) : HandleOutcome :=
  if cooldownActive e then .cooldownReply (cooldownRemaining e)
  else .ranPipeline

/-- What `SocketClient._handle_task` together with the subclass
`handle_task` gate does with an inbound task message. -/
inductive AdmissionOutcome where
  | rejectedOverload
  | cooldownFailed (remaining : ℤ)
  | dispatched
  deriving Repr, DecidableEq

/-- `SocketClient._handle_task` composed with the subclass cooldown gate:
first, if `len(active_tasks) >= max_active_tasks`, reply
`status=rejected`; otherwise store the `ActiveTask` entry and invoke
`handle_task`, whose gate may reply `status=failed` with
`cooldown_remaining` (via `send_task_response`, which also removes the
just-inserted entry) before any analysis runs. -/
def code_handle_task_msg (s : ClientState) (e : AgentErrorState)
    (task_id : String) (timeout_seconds now : ℚ) :
    ClientState × AdmissionOutcome :=
  if s.max_active_tasks ≤ s.active_tasks.length then
    ((send_task_response s task_id "rejected" none).1, .rejectedOverload)
  else
    let entry : ActiveTask := { start_time := now, timeout := timeout_seconds }
    let s1 := { s with active_tasks := alistInsert task_id entry s.active_tasks }
    if cooldownActive e then
      ((send_task_response s1 task_id "failed" (some (cooldownRemaining e))).1,
        .cooldownFailed (cooldownRemaining e))
    else (s1, .dispatched)

/-- Modelled from the spec (claim C2's wording, for comparison with
`code_handle_task_msg`): evaluate the cooldown first, the overload check
only otherwise, and insert the `ActiveTask` entry only when dispatching. -/
def claim_handle_task_msg (s : ClientState) (e : AgentErrorState)
    (task_id : String) (timeout_seconds now : ℚ) :
    ClientState × AdmissionOutcome :=
  if cooldownActive e then
    ((send_task_response s task_id "failed" (some (cooldownRemaining e))).1,
      .cooldownFailed (cooldownRemaining e))
  else if s.max_active_tasks ≤ s.active_tasks.length then
    ((send_task_response s task_id "rejected" none).1, .rejectedOverload)
  else
    let entry : ActiveTask := { start_time := now, timeout := timeout_seconds }
    ({ s with active_tasks := alistInsert task_id entry s.active_tasks },
      .dispatched)

example :
    (send_task_response { active_tasks := [("t1", ⟨0, 300⟩)] } "t1" "done" none).1.outbox
      = [{ id := "t1", status := "done" }] := by decide

example :
    (cleanup_timed_out_tasks 301 { active_tasks := [("t1", ⟨0, 300⟩)] }).outbox
      = [{ id := "t1", status := "timeout" }] := by
  simp [cleanup_timed_out_tasks, send_task_response, send_message, alistHasKey,
    alistErase]
  norm_num

/-! ## Main reconnect loop (SocketClient._main_loop) -/

/-- What one disconnected iteration of `_main_loop` does. -/
inductive MainLoopStep where
  | exited
  | connected
  | sleptRetry (delay : ℕ)
  deriving Repr, DecidableEq

/-- One disconnected iteration of `SocketClient._main_loop` with the
constructor constants baked in (`reconnect_interval = 10`,
`max_reconnect_attempts = 30`, interval cap 60 s): exit once
`reconnect_attempts >= 30`; otherwise compute
`min(base * 2 ** attempts, 60)`, try to connect, reset the counter on
success, and on failure increment it and sleep the computed interval.
The connect outcome is the `connect_ok` argument. Returns the step taken
and the updated `reconnect_attempts`. -/
def main_loop_iter (connect_ok : Bool) (reconnect_attempts : ℕ) :
    MainLoopStep × ℕ :=
  if 30 ≤ reconnect_attempts then (.exited, reconnect_attempts)
  else if connect_ok then (.connected, 0)
  else (.sleptRetry (min (10 * 2 ^ reconnect_attempts) 60), reconnect_attempts + 1)

/-- The `reconnect_attempts` counter after `n` consecutive failed
connection attempts starting from a fresh (or just-connected) loop. -/
def attempts_after_failures : ℕ → ℕ
  | 0 => 0
  | n + 1 => (main_loop_iter false (attempts_after_failures n)).2

/-! ## Finding records (src/quality_agent.py, src/security_agent.py) -/

/-- `QualityFinding` from `src/quality_agent.py` (the free-form `metadata`
dict is not carried; no claim reads it). -/
structure QualityFinding where
  tool : String
  rule_id : String
  message : String
  severity : String
  file_path : String
  line_number : ℤ
  column_number : Option ℤ := none
  end_line_number : Option ℤ := none
  end_column_number : Option ℤ := none
  category : Option String := none
  score : Option ℚ := none
  fix_suggestion : Option String := none
  deriving Repr, DecidableEq

/-- `SecurityFinding` from `src/security_agent.py` (the free-form
`metadata` dict is not carried; no claim reads it). -/
structure SecurityFinding where
  rule_id : String
  message : String
  severity : String
  file_path : String
  line_number : ℤ
  column_number : Option ℤ := none
  cwe_id : Option String := none
  owasp_category : Option String := none
  confidence : Option String := none
  deriving Repr, DecidableEq

/-- Python `str.upper()` on the ASCII severity tokens the agents handle:
uppercase every character (structurally recursive so that concrete values
reduce; extensionally `String.toUpper`). -/
def str_upper (s : String) : String := ⟨s.data.map Char.toUpper⟩

/-- Python `str.lower()`, in the same style as `str_upper`
(extensionally `String.toLower`). -/
def str_lower (s : String) : String := ⟨s.data.map Char.toLower⟩

/-! ## Severity maps and categories (src/quality_agent.py) -/

/-- `QualityAgent._map_ruff_severity`: `error` when no autofix
availability is reported, `warning` otherwise. -/
def map_ruff_severity (fix_availability : Option String) : String :=
  match fix_availability with
  | none => "error"
  | some _ => "warning"

/-- `QualityAgent._map_eslint_severity`: ESLint numeric severity 2 is
`error`, anything else `warning`. -/
def map_eslint_severity (severity : ℤ) : String :=
  if severity = 2 then "error" else "warning"

/-- `QualityAgent._map_complexity_severity`: CCN at least 20 is `error`,
at least 15 `warning`, else `info`. -/
def map_complexity_severity (complexity : ℤ) : String :=
  if 20 ≤ complexity then "error"
  else if 15 ≤ complexity then "warning"
  else "info"

/-- `QualityAgent._get_ruff_category` on the rule code prefix. -/
def get_ruff_category (rule_code : String) : String :=
  if rule_code.startsWith "E" || rule_code.startsWith "W" then "style"
  else if rule_code.startsWith "F" then "error-prone"
  else if rule_code.startsWith "B" then "bugbear"
  else "other"

/-! ## Ruff parser (QualityAgent._run_ruff_analysis, parse loop) -/

/-- The `location` / `end_location` objects of a decoded Ruff JSON item. -/
structure RuffLocation where
  row : Option ℤ := none
  column : Option ℤ := none
  deriving Repr, DecidableEq

/-- The `fix` object of a decoded Ruff JSON item. -/
structure RuffFix where
  availability : Option String := none
  message : Option String := none
  deriving Repr, DecidableEq

/-- One decoded Ruff JSON item; only the fields the parse loop reads are
carried, each `Option`-valued to model a possibly missing key. -/
structure RuffItem where
  code : Option String := none
  message : Option String := none
  fix : Option RuffFix := none
  filename : Option String := none
  location : Option RuffLocation := none
  end_location : Option RuffLocation := none
  deriving Repr, DecidableEq

/-- The body of the parse loop in `QualityAgent._run_ruff_analysis`: each
item becomes a `QualityFinding` with the source's `dict.get` defaults
(`row`/`column` default 0, `end_location` fields default `None`). -/
def parse_ruff_item (item : RuffItem) : QualityFinding :=
  { tool := "ruff"
  , rule_id := item.code.getD "RUFFF"
  , message := item.message.getD ""
  , severity := map_ruff_severity (item.fix.bind (fun f => f.availability))
  , file_path := item.filename.getD ""
  , line_number := (item.location.bind (fun l => l.row)).getD 0
  , column_number := some ((item.location.bind (fun l => l.column)).getD 0)
  , end_line_number := item.end_location.bind (fun l => l.row)
  , end_column_number := item.end_location.bind (fun l => l.column)
  , category := some (get_ruff_category (item.code.getD ""))
  , score := none
  , fix_suggestion := item.fix.bind (fun f => f.message) }

/-- The whole Ruff output: the decoded JSON list, mapped. -/
def parse_ruff_output (items : List RuffItem) : List QualityFinding :=
  items.map parse_ruff_item

/-! ## Semgrep parser (SecurityAgent._parse_semgrep_output) -/

/-- The `start` object of a decoded Semgrep result. -/
structure SemgrepStart where
  line : Option ℤ := none
  col : Option ℤ := none
  deriving Repr, DecidableEq

/-- The `metadata` object of a decoded Semgrep result (only the fields the
parser reads). -/
structure SemgrepMetadata where
  severity : Option String := none
  confidence : Option String := none
  deriving Repr, DecidableEq

/-- One decoded Semgrep result record. -/
structure SemgrepResult where
  rule_id : Option String := none
  message : Option String := none
  metadata : Option SemgrepMetadata := none
  path : Option String := none
  start : Option SemgrepStart := none
  deriving Repr, DecidableEq

/-- One decoded element of the top-level `results` list, itself carrying a
`results` list (the parser walks `results[].results[]`). -/
structure SemgrepRun where
  results : List SemgrepResult := []
  deriving Repr, DecidableEq

/-- `SecurityAgent._convert_semgrep_severity`:
`ERROR/WARNING/INFO -> error/warning/info`, default `info`. -/
def convert_semgrep_severity (semgrep_severity : String) : String :=
  let u := str_upper semgrep_severity
  if u = "ERROR" then "error"
  else if u = "WARNING" then "warning"
  else if u = "INFO" then "info"
  else "info"

/-- The body of the inner loop of `SecurityAgent._parse_semgrep_output`:
one record becomes a `SecurityFinding` with the source's `dict.get`
defaults (severity default `INFO`, `line`/`col` default 0). -/
def parse_semgrep_result (r : SemgrepResult) : SecurityFinding :=
  { rule_id := r.rule_id.getD "unknown"
  , message := r.message.getD ""
  , severity := convert_semgrep_severity
      ((r.metadata.bind (fun m => m.severity)).getD "INFO")
  , file_path := r.path.getD ""
  , line_number := (r.start.bind (fun st => st.line)).getD 0
  , column_number := some ((r.start.bind (fun st => st.col)).getD 0)
  , confidence := some ((r.metadata.bind (fun m => m.confidence)).getD "unknown") }

/-- `SecurityAgent._parse_semgrep_output` on the decoded JSON value:
walk `results[].results[]`. -/
def parse_semgrep_output (runs : List SemgrepRun) : List SecurityFinding :=
  runs.flatMap (fun run => run.results.map parse_semgrep_result)

/-! ## SARIF serialization of findings -/

/-- One SARIF `result` as assembled by the agents (only the fields the
claims read: `ruleId`, `level`, `message.text`, `region.startLine`,
`region.startColumn`). -/
structure SarifResult where
  ruleId : String
  level : String
  messageText : String
  startLine : ℤ
  startColumn : Option ℤ := none
  deriving Repr, DecidableEq

/-- The result built for one finding inside
`SecurityAgent._generate_sarif_report`: the `level` is
`finding.severity.lower()` taken directly from the finding (every
`hasattr` test on a `SecurityFinding` is true, so the attribute branches
apply), and the region is the finding's line and column. -/
def security_sarif_result (f : SecurityFinding) : SarifResult :=
  { ruleId := f.rule_id
  , level := str_lower f.severity
  , messageText := f.message
  , startLine := f.line_number
  , startColumn := f.column_number }

/-- A Python value that may be an `int` or a `str`, as accepted by
`QualityAgent._severity_to_level` in `quality_agent.py`. -/
inductive SeverityValue where
  | int (n : ℤ)
  | str (s : String)
  deriving Repr, DecidableEq

/-- `QualityAgent._severity_to_level` (`quality_agent.py`): numeric 2 is
`error`, 1 `warning`, other numbers `note`; strings are lowercased, then
`error -> error`, `warning`/`warn` `-> warning`, anything else (including
`info`) `-> note`. -/
def severity_to_level : SeverityValue → String
  | .int n => if n = 2 then "error" else if n = 1 then "warning" else "note"
  | .str s =>
    let t := str_lower s
    if t = "error" then "error"
    else if t = "warning" || t = "warn" then "warning"
    else "note"

/-! ## Tool exit-code policies -/

/-- `QualityAgent._run_ruff` (`quality_agent.py`): the run is an error iff
`result.returncode not in [0, 1]`. -/
def ruff_exit_accepted (returncode : ℤ) : Bool :=
  returncode = 0 || returncode = 1

/-- `QualityAgent._run_eslint` (`quality_agent.py`): same `[0, 1]`
acceptance test. -/
def eslint_exit_accepted (returncode : ℤ) : Bool :=
  returncode = 0 || returncode = 1

/-- `QualityAgent._run_lizard` (`quality_agent.py`): same `[0, 1]`
acceptance test. -/
def lizard_exit_accepted (returncode : ℤ) : Bool :=
  returncode = 0 || returncode = 1

/-- `SecurityAgent._run_semgrep`: the output is parsed only when
`result.returncode == 0`; any other exit code logs a warning and returns
no findings. -/
def semgrep_exit_accepted (returncode : ℤ) : Bool :=
  returncode = 0

/-! ## Severity breakdown and plugin conversion (src/quality_agent.py) -/

/-- The fixed-key dict initialized by `_get_severity_breakdown`. -/
structure SeverityBreakdown where
  error : ℕ
  warning : ℕ
  info : ℕ
  deriving Repr, DecidableEq

/-- One iteration of the `_get_severity_breakdown` loop:
`if finding.severity in breakdown: breakdown[finding.severity] += 1`. -/
def breakdown_step (b : SeverityBreakdown) (sev : String) : SeverityBreakdown :=
  if sev = "error" then { b with error := b.error + 1 }
  else if sev = "warning" then { b with warning := b.warning + 1 }
  else if sev = "info" then { b with info := b.info + 1 }
  else b

/-- `QualityAgent._get_severity_breakdown` (identical in
`SecurityAgent`): count findings into the three fixed buckets, ignoring
any other severity string. -/
def get_severity_breakdown (findings : List QualityFinding) : SeverityBreakdown :=
  findings.foldl (fun b f => breakdown_step b f.severity) ⟨0, 0, 0⟩

/-- The `data` dict of a plugin `QaIssue` (only the keys
`_convert_plugin_issues` reads). -/
structure QaIssueData where
  plugin : Option String := none
  suggestion : Option String := none
  deriving Repr, DecidableEq

/-- `QaIssue` from `src/plugins/base.py`; its documented severity values
are `critical`, `high`, `medium`, `low`. -/
structure QaIssue where
  file : String
  rule_id : String
  message : String
  severity : String
  start_line : ℤ
  start_column : Option ℤ := none
  end_line : Option ℤ := none
  end_column : Option ℤ := none
  data : Option QaIssueData := none
  deriving Repr, DecidableEq

/-- The severity values the in-tree plugins assign (`plugins/base.py`
documents the closed set; `yaml_syntax.py` and `typescript_syntax.py`
use exactly these). -/
def pluginSeverities : List String := ["critical", "high", "medium", "low"]

/-- The loop body of `QualityAgent._convert_plugin_issues`: the plugin
issue's severity string is copied into the finding unchanged. -/
def convert_plugin_issue (issue : QaIssue) : QualityFinding :=
  { tool := (issue.data.bind (fun d => d.plugin)).getD "unknown"
  , rule_id := issue.rule_id
  , message := issue.message
  , severity := issue.severity
  , file_path := issue.file
  , line_number := issue.start_line
  , column_number := issue.start_column
  , end_line_number := issue.end_line
  , end_column_number := issue.end_column
  , category := some "syntax"
  , score := none
  , fix_suggestion := issue.data.bind (fun d => d.suggestion) }

/-- `QualityAgent._convert_plugin_issues`. -/
def convert_plugin_issues (issues : List QaIssue) : List QualityFinding :=
  issues.map convert_plugin_issue

/-! ## Security analysis scope handling (SecurityAgent) -/

/-- The instance attribute `self.findings` of a `SecurityAgent`. -/
structure SecurityAgentFindings where
  findings : List SecurityFinding := []
  deriving Repr, DecidableEq

/-- The aggregate dict built by `SecurityAgent._run_security_analysis`
(the fields the response reads). -/
structure SecurityAnalysisResults where
  findings : List SecurityFinding := []
  tools_used : List String := []
  files_scanned : ℕ := 0
  deriving Repr, DecidableEq

/-- `SecurityAgent._run_security_analysis` at the scope-handling level:
`security_files` is the output of `_filter_security_files`, and the
findings and tool names produced by the tool runs are inputs. When the
filtered list is empty the function returns the empty results dict early,
leaving `self.findings` (the agent state) unchanged; otherwise it stores
the collected findings in `self.findings` and returns them. -/
def run_security_analysis (st : SecurityAgentFindings)
    (security_files : List String) (tool_findings : List SecurityFinding)
    (tool_names : List String) :
    SecurityAgentFindings × SecurityAnalysisResults :=
  if security_files.isEmpty then (st, {})
  else
    ({ findings := tool_findings },
      { findings := tool_findings, tools_used := tool_names,
        files_scanned := security_files.length })

/-- The `status` and the response fields the claims read from the
`results` dict of a task response. -/
structure DoneResponse where
  status : String
  findings_count : ℕ
  tools_used : List String
  deriving Repr, DecidableEq

/-- The success path of `SecurityAgent.handle_task`: run the analysis,
then reply `status=done` with `findings_count = len(self.findings)` (the
instance attribute after the run) and
`tools_used = list(results["tools_used"])`. -/
def security_handle_task_response (st : SecurityAgentFindings)
    (security_files : List String) (tool_findings : List SecurityFinding)
    (tool_names : List String) : DoneResponse :=
  let r := run_security_analysis st security_files tool_findings tool_names
  { status := "done", findings_count := r.1.findings.length,
    tools_used := r.2.tools_used }

/-- The scope branch of `QualityAgent.handle_task`
(`src/quality_agent.py`): when `_filter_quality_files` returns no files
the agent immediately replies `status=done` with `findings_count = 0` and
`tools_used = []`; otherwise the response reports the analysis findings
and the tools that ran. -/
def quality_handle_task_response (quality_files : List String)
    (analysis_findings : List QualityFinding) (tool_names : List String) :
    DoneResponse :=
  if quality_files.isEmpty then
    { status := "done", findings_count := 0, tools_used := [] }
  else
    { status := "done", findings_count := analysis_findings.length,
      tools_used := tool_names }

/-! ## Helper lemmas -/

theorem alistErase_all_ne {α : Type} (k : String) (l : List (String × α)) :
    (alistErase k l).all (fun p => p.1 ≠ k) = true := by
  simp only [alistErase, List.all_eq_true, List.mem_filter, decide_eq_true_eq]
  intro p hp
  exact hp.2

theorem send_message_active_tasks (s : ClientState) (m : TaskResponseMsg) :
    (send_message s m).1.active_tasks = s.active_tasks := by
  unfold send_message
  by_cases h : s.is_connected = true <;> simp [h]

theorem breakdown_foldl_error (l : List QualityFinding) (b : SeverityBreakdown) :
    (l.foldl (fun b f => breakdown_step b f.severity) b).error
      = b.error + l.countP (fun f => f.severity == "error") := by
  induction l generalizing b with
  | nil => simp
  | cons f t ih =>
    rw [List.foldl_cons, List.countP_cons, ih]
    by_cases h1 : f.severity = "error" <;> by_cases h2 : f.severity = "warning" <;>
      by_cases h3 : f.severity = "info" <;> simp_all [breakdown_step] <;> omega

theorem breakdown_foldl_warning (l : List QualityFinding) (b : SeverityBreakdown) :
    (l.foldl (fun b f => breakdown_step b f.severity) b).warning
      = b.warning + l.countP (fun f => f.severity == "warning") := by
  induction l generalizing b with
  | nil => simp
  | cons f t ih =>
    rw [List.foldl_cons, List.countP_cons, ih]
    by_cases h1 : f.severity = "error" <;> by_cases h2 : f.severity = "warning" <;>
      by_cases h3 : f.severity = "info" <;> simp_all [breakdown_step] <;> omega

theorem breakdown_foldl_info (l : List QualityFinding) (b : SeverityBreakdown) :
    (l.foldl (fun b f => breakdown_step b f.severity) b).info
      = b.info + l.countP (fun f => f.severity == "info") := by
  induction l generalizing b with
  | nil => simp
  | cons f t ih =>
    rw [List.foldl_cons, List.countP_cons, ih]
    by_cases h1 : f.severity = "error" <;> by_cases h2 : f.severity = "warning" <;>
      by_cases h3 : f.severity = "info" <;> simp_all [breakdown_step] <;> omega

theorem countP_severity_split (l : List QualityFinding) :
    l.countP (fun f => f.severity == "error")
      + l.countP (fun f => f.severity == "warning")
      + l.countP (fun f => f.severity == "info")
      = l.countP (fun f =>
          f.severity == "error" || f.severity == "warning" || f.severity == "info") := by
  induction l with
  | nil => simp
  | cons f t ih =>
    simp only [List.countP_cons]
    by_cases h1 : f.severity = "error" <;> by_cases h2 : f.severity = "warning" <;>
      by_cases h3 : f.severity = "info" <;> simp_all <;> omega

theorem alistInsert_hasKey {α : Type} (k : String) (v : α) (l : List (String × α)) :
    alistHasKey k (alistInsert k v l) = true := by
  unfold alistInsert
  by_cases h : alistHasKey k l
  · rw [if_pos h]
    simp only [alistHasKey, List.any_eq_true, decide_eq_true_eq] at h ⊢
    obtain ⟨p, hp, hpk⟩ := h
    exact ⟨(k, v), List.mem_map.mpr ⟨p, hp, by rw [if_pos hpk]⟩, rfl⟩
  · rw [if_neg h]
    simp [alistHasKey]

/-! ## Claim theorems -/

/-- C4: while disconnected the reconnect loop waits
`min(10 * 2 ^ attempts, 60)` seconds after each failed attempt, resets the
attempt counter to zero on a successful connect, and exits the main loop
once 30 consecutive attempts have failed. -/
theorem c4_reconnect_backoff :
    (∀ a : ℕ, a < 30 →
      main_loop_iter false a = (.sleptRetry (min (10 * 2 ^ a) 60), a + 1)) ∧
    (∀ a : ℕ, a < 30 → main_loop_iter true a = (.connected, 0)) ∧
    attempts_after_failures 30 = 30 ∧
    (∀ b : Bool, (main_loop_iter b 30).1 = .exited) := by
  refine ⟨?_, ?_, by decide, ?_⟩
  · intro a ha
    simp [main_loop_iter, Nat.not_le.mpr ha]
  · intro a ha
    simp [main_loop_iter, Nat.not_le.mpr ha]
  · intro b
    simp [main_loop_iter]

/-- Witness for C4 at concrete attempt counts. -/
theorem c4_reconnect_backoff_witness :
    main_loop_iter false 3 = (.sleptRetry (min (10 * 2 ^ 3) 60), 3 + 1) ∧
    main_loop_iter true 5 = (.connected, 0) :=
  ⟨c4_reconnect_backoff.1 3 (by decide), c4_reconnect_backoff.2.1 5 (by decide)⟩

/-- C9: `send_task_response` removes the `ActiveTask` entry before the
message is handed to `send_message` (which never touches `active_tasks`),
the send result equals `is_connected`, and when the client is not
connected the send returns `False`, nothing is transmitted, and the entry
stays removed. -/
theorem c9_response_removes_active_task (s : ClientState)
    (task_id status : String) (cr : Option ℤ)
    (h : alistHasKey task_id s.active_tasks = true) :
    ((send_task_response s task_id status cr).1.active_tasks.all
        (fun p => p.1 ≠ task_id) = true) ∧
    ((send_task_response s task_id status cr).2 = s.is_connected) ∧
    (s.is_connected = false →
      (send_task_response s task_id status cr).2 = false ∧
      (send_task_response s task_id status cr).1.outbox = s.outbox ∧
      (send_task_response s task_id status cr).1.active_tasks.all
        (fun p => p.1 ≠ task_id) = true) ∧
    (∀ s2 : ClientState, ∀ m : TaskResponseMsg,
      (send_message s2 m).1.active_tasks = s2.active_tasks) := by
  have hall := alistErase_all_ne task_id s.active_tasks
  refine ⟨?_, ?_, ?_, send_message_active_tasks⟩
  · unfold send_task_response
    rw [send_message_active_tasks]
    exact hall
  · unfold send_task_response send_message
    by_cases hc : s.is_connected = true <;> simp [hc]
  · intro hc
    unfold send_task_response send_message
    simp [hc]
    intro a b hmem
    simp only [alistErase, List.mem_filter, decide_eq_true_eq] at hmem
    exact hmem.2

/-- Witness for C9 on a one-task disconnected client. -/
theorem c9_response_removes_active_task_witness :
    alistHasKey "t1" [("t1", (⟨0, 300⟩ : ActiveTask))] = true ∧
    ((send_task_response
        { active_tasks := [("t1", ⟨0, 300⟩)], is_connected := false }
        "t1" "done" none).1.active_tasks.all (fun p => p.1 ≠ "t1") = true) ∧
    (send_task_response
        { active_tasks := [("t1", ⟨0, 300⟩)], is_connected := false }
        "t1" "done" none).2 = false := by
  have h := c9_response_removes_active_task
    { active_tasks := [("t1", ⟨0, 300⟩)], is_connected := false }
    "t1" "done" none (by decide)
  exact ⟨by decide, h.1, (h.2.2.1 rfl).1⟩

/-- C10: the severity breakdown counts exactly the findings whose severity
is the literal `error`, `warning` or `info`; the sum of the three buckets
is at most the number of findings, with equality exactly when every
finding's severity lies in that set; plugin-converted findings keep the
plugin's severity string unchanged, and one whose severity is a plugin
severity (`critical`, `high`, `medium`, `low`) contributes to no bucket. -/
theorem c10_breakdown_counts (findings : List QualityFinding) (issue : QaIssue) :
    ((get_severity_breakdown findings).error
        = findings.countP (fun f => f.severity == "error") ∧
      (get_severity_breakdown findings).warning
        = findings.countP (fun f => f.severity == "warning") ∧
      (get_severity_breakdown findings).info
        = findings.countP (fun f => f.severity == "info")) ∧
    ((get_severity_breakdown findings).error
        + (get_severity_breakdown findings).warning
        + (get_severity_breakdown findings).info ≤ findings.length) ∧
    ((get_severity_breakdown findings).error
          + (get_severity_breakdown findings).warning
          + (get_severity_breakdown findings).info = findings.length ↔
      ∀ f ∈ findings,
        f.severity = "error" ∨ f.severity = "warning" ∨ f.severity = "info") ∧
    ((convert_plugin_issue issue).severity = issue.severity) ∧
    (issue.severity ∈ pluginSeverities →
      get_severity_breakdown (findings ++ [convert_plugin_issue issue])
        = get_severity_breakdown findings) := by
  have he : (get_severity_breakdown findings).error
      = findings.countP (fun f => f.severity == "error") := by
    simpa [get_severity_breakdown] using breakdown_foldl_error findings ⟨0, 0, 0⟩
  have hw : (get_severity_breakdown findings).warning
      = findings.countP (fun f => f.severity == "warning") := by
    simpa [get_severity_breakdown] using breakdown_foldl_warning findings ⟨0, 0, 0⟩
  have hi : (get_severity_breakdown findings).info
      = findings.countP (fun f => f.severity == "info") := by
    simpa [get_severity_breakdown] using breakdown_foldl_info findings ⟨0, 0, 0⟩
  have hsum : (get_severity_breakdown findings).error
      + (get_severity_breakdown findings).warning
      + (get_severity_breakdown findings).info
      = findings.countP (fun f =>
          f.severity == "error" || f.severity == "warning" || f.severity == "info") := by
    rw [he, hw, hi]
    exact countP_severity_split findings
  refine ⟨⟨he, hw, hi⟩, ?_, ?_, rfl, ?_⟩
  · rw [hsum]
    exact List.countP_le_length _
  · rw [hsum]
    rw [List.countP_eq_length]
    constructor
    · intro hall f hf
      have := hall f hf
      simp at this
      tauto
    · intro hall f hf
      have := hall f hf
      simp
      tauto
  · intro hmem
    unfold get_severity_breakdown
    rw [List.foldl_append]
    show breakdown_step _ (convert_plugin_issue issue).severity = _
    have hsev : (convert_plugin_issue issue).severity = issue.severity := rfl
    rw [hsev]
    simp only [pluginSeverities, List.mem_cons, List.mem_singleton,
      List.not_mem_nil, or_false] at hmem
    rcases hmem with h | h | h | h <;> rw [h] <;> simp [breakdown_step]

/-- Witness for C10 on a concrete finding list and plugin issue. -/
theorem c10_breakdown_counts_witness :
    ("critical" : String) ∈ pluginSeverities ∧
    get_severity_breakdown
        ([{ tool := "ruff", rule_id := "E1", message := "m", severity := "error",
            file_path := "a.py", line_number := 1 }] ++
          [convert_plugin_issue
            { file := "b.yaml", rule_id := "yaml-syntax", message := "m",
              severity := "critical", start_line := 1 }])
      = get_severity_breakdown
          [{ tool := "ruff", rule_id := "E1", message := "m", severity := "error",
             file_path := "a.py", line_number := 1 }] := by
  have h := c10_breakdown_counts
    [{ tool := "ruff", rule_id := "E1", message := "m", severity := "error",
       file_path := "a.py", line_number := 1 }]
    { file := "b.yaml", rule_id := "yaml-syntax", message := "m",
      severity := "critical", start_line := 1 }
  exact ⟨by decide, h.2.2.2.2 (by decide)⟩

/-- C2 counterexample: in a state where the agent is both overloaded and
in cooldown, the code replies `status=rejected` (overload checked first),
while the claimed order replies `status=failed` with `cooldown_remaining`;
the two admission functions disagree at this concrete input. -/
theorem c2_admission_order_counterexample :
    (code_handle_task_msg
        { active_tasks := List.replicate 10 ("t", ⟨0, 300⟩) }
        { consecutive_errors := 10, elapsed_since_success := 100 }
        "t11" 300 1000).2 = .rejectedOverload ∧
    (claim_handle_task_msg
        { active_tasks := List.replicate 10 ("t", ⟨0, 300⟩) }
        { consecutive_errors := 10, elapsed_since_success := 100 }
        "t11" 300 1000).2 = .cooldownFailed 200 ∧
    AdmissionOutcome.rejectedOverload ≠ AdmissionOutcome.cooldownFailed 200 := by
  have hca : cooldownActive
      { consecutive_errors := 10, elapsed_since_success := 100 } = true := by
    simp only [cooldownActive, Bool.and_eq_true, decide_eq_true_eq]
    norm_num
  have hcr : cooldownRemaining
      { consecutive_errors := 10, elapsed_since_success := 100 } = 200 := by
    simp only [cooldownRemaining]
    norm_num
  refine ⟨?_, ?_, by decide⟩
  · unfold code_handle_task_msg
    rw [if_pos (by decide :
      (10 : ℕ) ≤ (List.replicate 10 ("t", (⟨0, 300⟩ : ActiveTask))).length)]
  · unfold claim_handle_task_msg
    rw [if_pos hca, hcr]

/-- C2 amended: on a task message the code checks overload first
(`status=rejected` whenever `len(active_tasks) >= max_active_tasks`,
regardless of the cooldown); only below the limit is the `ActiveTask`
entry inserted and the handler invoked, whose cooldown gate then replies
`status=failed` with `cooldown_remaining` (the entry being removed again
by `send_task_response`); when neither condition holds the task is
dispatched with its entry present. -/
theorem c2_admission_overload_first (s : ClientState) (e : AgentErrorState)
    (task_id : String) (ts now : ℚ) :
    (s.max_active_tasks ≤ s.active_tasks.length →
      (code_handle_task_msg s e task_id ts now).2 = .rejectedOverload) ∧
    (s.active_tasks.length < s.max_active_tasks → cooldownActive e = true →
      (code_handle_task_msg s e task_id ts now).2
          = .cooldownFailed (cooldownRemaining e) ∧
      (code_handle_task_msg s e task_id ts now).1.active_tasks.all
        (fun p => p.1 ≠ task_id) = true) ∧
    (s.active_tasks.length < s.max_active_tasks → cooldownActive e = false →
      (code_handle_task_msg s e task_id ts now).2 = .dispatched ∧
      alistHasKey task_id
        (code_handle_task_msg s e task_id ts now).1.active_tasks = true) := by
  refine ⟨?_, ?_, ?_⟩
  · intro h
    unfold code_handle_task_msg
    rw [if_pos h]
  · intro h1 h2
    unfold code_handle_task_msg
    rw [if_neg (Nat.not_le.mpr h1), if_pos h2]
    refine ⟨rfl, ?_⟩
    unfold send_task_response
    rw [send_message_active_tasks]
    exact alistErase_all_ne _ _
  · intro h1 h2
    unfold code_handle_task_msg
    rw [if_neg (Nat.not_le.mpr h1), if_neg (by simp [h2])]
    exact ⟨rfl, alistInsert_hasKey _ _ _⟩

/-- Witness for C2 at an overloaded state and at an idle state. -/
theorem c2_admission_overload_first_witness :
    (code_handle_task_msg
        { active_tasks := List.replicate 10 ("t", ⟨0, 300⟩) }
        { consecutive_errors := 0, elapsed_since_success := 0 }
        "t11" 300 1000).2 = .rejectedOverload ∧
    (code_handle_task_msg ({} : ClientState)
        { consecutive_errors := 0, elapsed_since_success := 0 }
        "t1" 300 0).2 = .dispatched := by
  have h1 := (c2_admission_overload_first
    { active_tasks := List.replicate 10 ("t", ⟨0, 300⟩) }
    { consecutive_errors := 0, elapsed_since_success := 0 }
    "t11" 300 1000).1 (by decide)
  have h2 := (c2_admission_overload_first ({} : ClientState)
    { consecutive_errors := 0, elapsed_since_success := 0 }
    "t1" 300 0).2.2 (by decide) (by simp [cooldownActive])
  exact ⟨h1, h2.1⟩

/-- C3 counterexample: with `consecutive_errors = 10` and 299.5 s elapsed
since the last success the cooldown is active, yet the reply carries
`cooldown_remaining = int(300 - 299.5) = 0`, which is not positive. -/
theorem c3_cooldown_positive_counterexample :
    ¬ (∀ e : AgentErrorState, cooldownActive e = true →
        ∃ r : ℤ, qualityCooldownGate e = .cooldownReply r ∧ 0 < r) := by
  intro hclaim
  have hca : cooldownActive
      { consecutive_errors := 10, elapsed_since_success := 599 / 2 } = true := by
    simp only [cooldownActive, Bool.and_eq_true, decide_eq_true_eq]
    norm_num
  have hrem : cooldownRemaining
      { consecutive_errors := 10, elapsed_since_success := 599 / 2 } = 0 := by
    simp only [cooldownRemaining]
    norm_num
  obtain ⟨r, hr, hpos⟩ := hclaim _ hca
  have hg : qualityCooldownGate
      { consecutive_errors := 10, elapsed_since_success := 599 / 2 }
      = .cooldownReply 0 := by
    unfold qualityCooldownGate
    rw [if_pos hca, hrem]
  rw [hg] at hr
  injection hr with h0
  omega

/-- C3 amended: while the cooldown guard holds (at least
`max_consecutive_errors` consecutive errors and less than
`error_threshold_cooldown` seconds since the last successful run) the
agent replies `status=failed` with
`cooldown_remaining = int(cooldown - elapsed)`, which is nonnegative but
can be 0, and does not run the pipeline; once the elapsed time reaches the
cooldown the task is admitted normally. -/
theorem c3_cooldown_gate (e : AgentErrorState) :
    (cooldownActive e = true →
      qualityCooldownGate e = .cooldownReply (cooldownRemaining e) ∧
      0 ≤ cooldownRemaining e) ∧
    (e.error_threshold_cooldown ≤ e.elapsed_since_success →
      qualityCooldownGate e = .ranPipeline) ∧
    (cooldownActive e = true ↔
      e.max_consecutive_errors ≤ e.consecutive_errors ∧
      e.elapsed_since_success < e.error_threshold_cooldown) := by
  refine ⟨?_, ?_, ?_⟩
  · intro h
    refine ⟨by unfold qualityCooldownGate; rw [if_pos h], ?_⟩
    have hlt : e.elapsed_since_success < e.error_threshold_cooldown := by
      simp only [cooldownActive, Bool.and_eq_true, decide_eq_true_eq] at h
      exact h.2
    unfold cooldownRemaining
    have hq : (0 : ℚ) ≤ e.error_threshold_cooldown - e.elapsed_since_success := by
      linarith
    exact Int.le_floor.mpr (by exact_mod_cast hq)
  · intro h
    have hne : ¬ (cooldownActive e = true) := by
      simp only [cooldownActive, Bool.and_eq_true, decide_eq_true_eq, not_and]
      intro _
      exact not_lt.mpr h
    unfold qualityCooldownGate
    rw [if_neg hne]
  · simp [cooldownActive]

/-- Witness for C3 in and out of cooldown. -/
theorem c3_cooldown_gate_witness :
    qualityCooldownGate { consecutive_errors := 10, elapsed_since_success := 100 }
      = .cooldownReply
          (cooldownRemaining
            { consecutive_errors := 10, elapsed_since_success := 100 }) ∧
    0 ≤ cooldownRemaining
          { consecutive_errors := 10, elapsed_since_success := 100 } ∧
    qualityCooldownGate { consecutive_errors := 10, elapsed_since_success := 400 }
      = .ranPipeline := by
  have h1 := (c3_cooldown_gate
    { consecutive_errors := 10, elapsed_since_success := 100 }).1 (by
      simp only [cooldownActive, Bool.and_eq_true, decide_eq_true_eq]
      norm_num)
  have h2 := (c3_cooldown_gate
    { consecutive_errors := 10, elapsed_since_success := 400 }).2.1 (by norm_num)
  exact ⟨h1.1, h1.2, h2⟩

/-- C5 counterexample: the security agent's SARIF builder emits
`finding.severity.lower()` as the `level`, so a normalized `info` finding
yields `level = "info"`, which is outside the SARIF set
`error / warning / note`. -/
theorem c5_sarif_level_counterexample :
    (security_sarif_result
        { rule_id := "r", message := "m", severity := "info",
          file_path := "a.py", line_number := 1 }).level = "info" ∧
    ¬ ((security_sarif_result
          { rule_id := "r", message := "m", severity := "info",
            file_path := "a.py", line_number := 1 }).level = "error" ∨
        (security_sarif_result
          { rule_id := "r", message := "m", severity := "info",
            file_path := "a.py", line_number := 1 }).level = "warning" ∨
        (security_sarif_result
          { rule_id := "r", message := "m", severity := "info",
            file_path := "a.py", line_number := 1 }).level = "note") := by
  decide

/-- C5 amended: the quality agent's serializer
(`QualityAgent._severity_to_level`) maps `error -> error`,
`warning -> warning` and everything else (including `info`) to `note`, so
its string levels always lie in the SARIF set; the security agent's
builder instead emits the lowercased severity verbatim, so a finding with
a normalized severity keeps it as the level (in particular `info` stays
`info`, not `note`). -/
theorem c5_sarif_level_mapping (sv : String) (f : SecurityFinding) :
    (severity_to_level (.str "error") = "error" ∧
      severity_to_level (.str "warning") = "warning" ∧
      severity_to_level (.str "info") = "note") ∧
    (severity_to_level (.str sv) = "error" ∨
      severity_to_level (.str sv) = "warning" ∨
      severity_to_level (.str sv) = "note") ∧
    ((security_sarif_result f).level = str_lower f.severity) ∧
    (f.severity = "error" ∨ f.severity = "warning" ∨ f.severity = "info" →
      (security_sarif_result f).level = f.severity) := by
  refine ⟨⟨by decide, by decide, by decide⟩, ?_, rfl, ?_⟩
  · unfold severity_to_level
    dsimp only
    split_ifs <;> simp
  · intro h
    have hl : (security_sarif_result f).level = str_lower f.severity := rfl
    rcases h with h | h | h <;> rw [hl, h] <;> decide

/-- Witness for C5 on a concrete warning finding. -/
theorem c5_sarif_level_mapping_witness :
    (security_sarif_result
        { rule_id := "r", message := "m", severity := "warning",
          file_path := "a.py", line_number := 3 }).level = "warning" := by
  have h := c5_sarif_level_mapping "x"
    { rule_id := "r", message := "m", severity := "warning",
      file_path := "a.py", line_number := 3 }
  exact h.2.2.2 (Or.inr (Or.inl rfl))

/-- C6 counterexample: a Semgrep record with no `start` object parses to a
finding with `start_line = 0` (the `dict.get` default), violating
`start_line >= 1` exactly in the missing-location case the claim covers. -/
theorem c6_missing_location_counterexample :
    (parse_semgrep_result ({} : SemgrepResult)).line_number = 0 ∧
    ¬ (1 ≤ (parse_semgrep_result ({} : SemgrepResult)).line_number) := by
  refine ⟨rfl, by decide⟩

/-- C6 amended: the cited parsers always emit a normalized severity
(Semgrep findings in `error / warning / info`, Ruff findings in
`error / warning`), and `start_line >= 1` holds whenever the record
carries a location line that is at least 1; but the line is copied with
default 0, so a record lacking its location field yields
`start_line = 0`. -/
theorem c6_parser_field_normalization (r : SemgrepResult) (item : RuffItem)
    (l1 l2 : ℤ) :
    ((parse_semgrep_result r).severity = "error" ∨
      (parse_semgrep_result r).severity = "warning" ∨
      (parse_semgrep_result r).severity = "info") ∧
    ((parse_ruff_item item).severity = "error" ∨
      (parse_ruff_item item).severity = "warning") ∧
    (r.start.bind (fun st => st.line) = some l1 → 1 ≤ l1 →
      1 ≤ (parse_semgrep_result r).line_number) ∧
    (item.location.bind (fun lo => lo.row) = some l2 → 1 ≤ l2 →
      1 ≤ (parse_ruff_item item).line_number) ∧
    (parse_semgrep_result ({} : SemgrepResult)).line_number = 0 := by
  refine ⟨?_, ?_, ?_, ?_, rfl⟩
  · have hall : ∀ x : String, convert_semgrep_severity x = "error" ∨
        convert_semgrep_severity x = "warning" ∨
        convert_semgrep_severity x = "info" := by
      intro x
      unfold convert_semgrep_severity
      dsimp only
      split_ifs <;> simp
    exact hall _
  · show map_ruff_severity _ = "error" ∨ map_ruff_severity _ = "warning"
    rcases item.fix.bind (fun f => f.availability) with _ | a <;>
      simp [map_ruff_severity]
  · intro h hl
    show 1 ≤ (r.start.bind (fun st => st.line)).getD 0
    rw [h]
    simpa using hl
  · intro h hl
    show 1 ≤ (item.location.bind (fun lo => lo.row)).getD 0
    rw [h]
    simpa using hl

/-- Witness for C6 on records that do carry a location. -/
theorem c6_parser_field_normalization_witness :
    1 ≤ (parse_semgrep_result { start := some { line := some 5 } }).line_number ∧
    1 ≤ (parse_ruff_item { location := some { row := some 2 } }).line_number := by
  have h := c6_parser_field_normalization
    { start := some { line := some 5 } }
    { location := some { row := some 2 } } 5 2
  exact ⟨h.2.2.1 rfl (by decide), h.2.2.2.1 rfl (by decide)⟩

/-- C7 counterexample: `SecurityAgent._run_semgrep` parses the output only
on exit code 0; exit code 1 is treated as a failed run and its findings
are dropped, contradicting the claimed `0 or 1 is success` policy (which
`_run_ruff` does implement). -/
theorem c7_semgrep_exit_counterexample :
    semgrep_exit_accepted 1 = false ∧ ruff_exit_accepted 1 = true := by decide

/-- C7 amended: in `quality_agent.py` the Ruff, ESLint and Lizard runners
accept exactly exit codes 0 and 1 and treat anything else as an error
whose run is omitted; the security agent's Semgrep runner accepts only
exit code 0 and omits the run for every nonzero exit code, including 1. -/
theorem c7_exit_code_policy (rc : ℤ) :
    (ruff_exit_accepted rc = true ↔ rc = 0 ∨ rc = 1) ∧
    (eslint_exit_accepted rc = true ↔ rc = 0 ∨ rc = 1) ∧
    (lizard_exit_accepted rc = true ↔ rc = 0 ∨ rc = 1) ∧
    (semgrep_exit_accepted rc = true ↔ rc = 0) := by
  unfold ruff_exit_accepted eslint_exit_accepted lizard_exit_accepted
    semgrep_exit_accepted
  refine ⟨by simp, by simp, by simp, by simp⟩

/-- C1: the code emits two responses for one accepted task id. Admit task
`t1` at time 0 with a 300 s timeout; the heartbeat sweep at time 301
removes the entry and emits a `status=timeout` response; when the handler
later finishes, its `send_task_response` sends a `status=done` response
unconditionally (the membership check in `send_task_response` only guards
the deletion, not the send), so the outbox carries both responses with
id `t1`. -/
theorem c1_double_response_trace :
    ((send_task_response
        (cleanup_timed_out_tasks 301
          (code_handle_task_msg ({} : ClientState)
            { consecutive_errors := 0, elapsed_since_success := 0 }
            "t1" 300 0).1)
        "t1" "done" none).1.outbox.map (fun m => (m.id, m.status)))
      = [("t1", "timeout"), ("t1", "done")] := by
  have h1 : (code_handle_task_msg ({} : ClientState)
      { consecutive_errors := 0, elapsed_since_success := 0 }
      "t1" 300 0).1 = { active_tasks := [("t1", ⟨0, 300⟩)] } := by
    simp [code_handle_task_msg, cooldownActive, alistInsert, alistHasKey]
  rw [h1]
  have h2 : cleanup_timed_out_tasks 301 { active_tasks := [("t1", ⟨0, 300⟩)] }
      = { active_tasks := [],
          outbox := [{ id := "t1", status := "timeout" }] } := by
    simp [cleanup_timed_out_tasks, alistHasKey, alistErase,
      send_task_response, send_message, List.filter_cons, List.filter_nil,
      (by norm_num : (300 : ℚ) < 301)]
  rw [h2]
  simp [send_task_response, send_message, alistErase]

/-- C8: when the filtered scope is empty the security agent's
`_run_security_analysis` returns early without resetting `self.findings`,
so the `status=done` reply reports the previous task's findings count
(here 1) instead of 0; the quality agent's explicit empty-scope branch
does reply with `findings_count = 0` and `tools_used = []`. -/
theorem c8_empty_scope_stale_findings :
    security_handle_task_response
        { findings := [{ rule_id := "r1", message := "m", severity := "error",
                         file_path := "a.py", line_number := 1 }] }
        [] [] []
      = { status := "done", findings_count := 1, tools_used := [] } ∧
    quality_handle_task_response ([] : List String) [] []
      = { status := "done", findings_count := 0, tools_used := [] } := by
  decide
